import Mathlib

/-
  Verification of the Writing3D feature/validation/serialization framework.

  Shallow embedding of:
    src/pycave/features.py   (CaveFeature: validated attribute container)
    src/pycave/actions.py    (CaveAction dispatch, ObjectAction XML round trip)
    src/pyw3d/sounds.py      (W3DSound XML serialization)
    src/pyw3d/project.py     (W3DProject.__setitem__ logging side effect)

  Python dictionaries are modelled as association lists (`Store`), Python
  heterogeneous values as the inductive `Value` (Python int and float are
  merged into a single rational-number arm, matching Python's cross-type
  numeric equality for the integer-valued data these modules manipulate),
  and `xml.etree.ElementTree.Element` as the inductive `Element`.  Fallible
  Python code (raised exceptions) is modelled with `Except CaveError`.

  Files referenced by the sources but absent from the repository snapshot
  (pycave/validators.py, pycave/errors.py, pycave/xml_tools.py,
  pycave/placement.py and the pyw3d equivalents, including
  pyw3d/features.py) are modelled from the specification; each such
  definition carries a doc comment starting "Modelled from the spec:".
-/

/-- Modelled from the spec: pycave/placement.py is not in the repository
snapshot.  From actions.py we can observe only that a `CavePlacement`
serializes itself as a child element tagged "Placement" beneath the node it
is handed (`self["placement"].toXML(node)` paired with
`node.find("Placement")` on the read side) and that `CavePlacement.fromXML`
reconstructs the placement from that element.  The placement's own fields
are abstract here and are represented by a single payload string. -/
structure CavePlacement where
  payload : String
deriving DecidableEq

/-- A Python value as manipulated by the feature framework: strings,
numbers (int and float merged into ℚ; every numeric literal appearing in
these modules is rational), booleans, placements, and tuples/lists of
values (used for colors and backgrounds). -/
inductive Value where
  | str (s : String)
  | num (q : ℚ)
  | bool (b : Bool)
  | place (p : CavePlacement)
  | list (xs : List Value)

/-- An in-memory `xml.etree.ElementTree.Element`.  Attribute values are
`Value`, not `String`: `ObjectAction.toXML` (actions.py line 89) stores the
raw Python object `self["duration"]` in the attribute dictionary without
converting it to a string, and `fromXML` reads that raw object back. -/
inductive Element where
  | mk (tag : String) (attrib : List (String × Value)) (children : List Element) (text : Option String)

def Element.tag : Element → String
  | .mk t _ _ _ => t

def Element.attrib : Element → List (String × Value)
  | .mk _ a _ _ => a

def Element.children : Element → List Element
  | .mk _ _ c _ => c

def Element.text : Element → Option String
  | .mk _ _ _ tx => tx

/-- Lookup in an association list used as a Python dictionary
(`d[k]` raising `KeyError` is modelled by the `none` case at call sites). -/
def alistLookup (l : List (String × Value)) (k : String) : Option Value :=
  match l with
  | [] => none
  | (k', v) :: rest => if k' = k then some v else alistLookup rest k

/-- Python `element.find(tag)`: first child with the given tag, or `None`. -/
def Element.find (e : Element) (t : String) : Option Element :=
  match e with
  | .mk _ _ children _ => findAux children t
where findAux : List Element → String → Option Element
  | [], _ => none
  | c :: rest, t => if c.tag = t then some c else findAux rest t

/-- The attribute store of one feature instance: a Python dict
(insertion-ordered association list with unique keys). -/
abbrev Store := List (String × Value)

def Store.hasKey (s : Store) (k : String) : Bool :=
  match s with
  | [] => false
  | (k', _) :: rest => k' = k || Store.hasKey rest k

def Store.lookup (s : Store) (k : String) : Option Value :=
  alistLookup s k

/-- Python dict assignment `d[k] = v`: overwrite in place if the key is
present (keeping its position), otherwise append. -/
def Store.set (s : Store) (k : String) (v : Value) : Store :=
  match s with
  | [] => [(k, v)]
  | (k', v') :: rest =>
      if k' = k then (k, v) :: rest else (k', v') :: Store.set rest k v

/-- Python `dict.get(k, fallback)`: returns the stored value or the
fallback; unlike `d[k]` it never consults `__missing__`. -/
def Store.get (s : Store) (k : String) (fallback : Value) : Value :=
  match Store.lookup s k with
  | some v => v
  | none => fallback

/-- Errors raised by the embedded code.  `invalidAttribute` and
`invalidValue` both model `pycave.errors.InvalidArgument` (errors.py is not
in the repository snapshot); the two constructors record which of the two
distinct raise sites of `CaveFeature.__setitem__` produced the error — the
message "{key} not a valid option for this Cave feature" versus
"{value} is not a valid value for option {key}" — matching the spec's
taxonomy names InvalidAttribute / InvalidValue.  `badXML` models both
`BadCaveXML` and `BadW3DXML`; `keyError` models a Python `KeyError`
escaping `__missing__` (the spec's MissingAttribute); the remaining
constructors model the corresponding built-in Python exceptions. -/
inductive CaveError where
  | invalidAttribute (key : String)
  | invalidValue (key : String) (value : Value)
  | badXML (msg : String)
  | keyError (key : String)
  | consistencyError (msg : String)
  | notImplemented (msg : String)
  | typeError (msg : String)
  | valueError (msg : String)
  | indexError (msg : String)
  | attributeError (msg : String)

/-- Python truthiness, as used by `if self["move_relative"]:` and by
`W3DProject.__setitem__`'s `if value:`. -/
def pyTruthy : Value → Bool
  | .str s => s != ""
  | .num q => q != 0
  | .bool b => b
  | .place _ => true
  | .list xs => !xs.isEmpty

/-- Rendering of a Python number by `str(...)`.  Exact for integers (the
only numbers the verified paths render); a non-integral rational is
rendered as its numerator and denominator, standing in for Python's
decimal float notation. -/
def numToStr (q : ℚ) : String :=
  if q.den = 1 then toString q.num
  else toString q.num ++ "/" ++ toString q.den

/-- Python `str(v)` for the values these modules pass to it.  Booleans
render as "True"/"False" as in Python; placements and lists never reach a
`str(...)` call on the verified paths. -/
def pyStr : Value → String
  | .str s => s
  | .num q => numToStr q
  | .bool b => if b then "True" else "False"
  | .place _ => "CavePlacement"
  | .list _ => "list"

/-- Python `float(v)` as applied to attribute values read back from a
document node: numbers pass through, booleans convert to 0/1, strings are
parsed (integer-valued strings suffice for the verified paths), anything
else raises `TypeError`. -/
def pyFloat : Value → Except CaveError ℚ
  | .num q => .ok q
  | .bool b => .ok (if b then 1 else 0)
  | .str s =>
      match s.trim.toInt? with
      | some i => .ok i
      | none => .error (.valueError ("could not convert string to float: " ++ s))
  | _ => .error (.typeError "float() argument must be a string or a number")

/-- Modelled from the spec: xml_tools.py is not in the repository snapshot.
Booleans are serialized as the literal text tokens "True"/"False" (§6).
Only boolean inputs are modelled; the validated call sites pass booleans. -/
def bool2text : Value → Except CaveError String
  | .bool b => .ok (if b then "True" else "False")
  | _ => .error (.typeError "bool2text expects a boolean")

/-- Modelled from the spec: xml_tools.py is not in the repository snapshot.
Reads a "True"/"False" text token (§6); the element's text being `None`
raises as in Python.  The spec's tolerance for surrounding whitespace is
not modelled — no producer embedded here emits padded text. -/
def text2bool : Option String → Except CaveError Bool
  | none => .error (.attributeError "NoneType has no attribute strip")
  | some s => .ok (s = "True")

/-- A feature subclass's static configuration: `argument_validators` and
`default_arguments` (features.py lines 19 and 30), as insertion-ordered
association lists mirroring the source's dictionary literals. -/
structure Schema where
  validators : List (String × (Value → Bool))
  defaults : List (String × Value)

def Schema.findValidator (sch : Schema) (k : String) : Option (Value → Bool) :=
  match sch.validators with
  | [] => none
  | _ => findAux sch.validators k
where findAux : List (String × (Value → Bool)) → String → Option (Value → Bool)
  | [], _ => none
  | (k', f) :: rest, k => if k' = k then some f else findAux rest k

def Schema.findDefault (sch : Schema) (k : String) : Option Value :=
  alistLookup sch.defaults k

/-- Embedding of `CaveFeature.__setitem__` (features.py lines 45-52): reject a key not
in `argument_validators` with InvalidArgument ("not a valid option ..."),
reject a value the key's validator refuses with InvalidArgument ("... is
not a valid value for option ..."), otherwise store the value unchanged. -/
def featureSet (sch : Schema) (self : Store) (key : String) (value : Value) :
    Except CaveError Store :=
  match sch.findValidator key with
  | none => .error (.invalidAttribute key)
  | some validate =>
      if validate value then .ok (self.set key value)
      else .error (.invalidValue key value)

/-- Embedding of `self[key]` on a `CaveFeature`: the stored value if present, else
`__missing__` (features.py lines 54-55) looks the key up in
`default_arguments`, raising `KeyError` when it is absent there too.  The
instance is never mutated by a read. -/
def featureGet (sch : Schema) (self : Store) (key : String) : Except CaveError Value :=
  match self.lookup key with
  | some v => .ok v
  | none =>
      match sch.findDefault key with
      | some d => .ok d
      | none => .error (.keyError key)

/-- Embedding of `CaveFeature.is_default` (features.py lines 81-84): true iff no value
has been stored for the key and a default exists for it. -/
def isDefault (sch : Schema) (self : Store) (key : String) : Bool :=
  !self.hasKey key && (sch.findDefault key).isSome

/-- Modelled from the spec: validators.py is not in the repository
snapshot.  `IsNumeric(min_value, max_value)` (the spec's NumericInRange,
§3/§4.1/§8): accepts a number within the optional bounds, inclusive. -/
def IsNumeric (min? max? : Option ℚ) : Value → Bool
  | .num q =>
      (match min? with | some lo => decide (lo ≤ q) | none => true) &&
      (match max? with | some hi => decide (q ≤ hi) | none => true)
  | _ => false

/-- Modelled from the spec: validators.py is not in the repository
snapshot.  `AlwaysValid(help_string)`: accepts anything (§3). -/
def AlwaysValid : Value → Bool := fun _ => true

/-- Modelled from the spec: validators.py is not in the repository
snapshot.  `OptionListValidator(opts...)` / `OptionValidator` (the spec's
OptionFromSet, §3): accepts exactly the listed string options. -/
def OptionListValidator (opts : List String) : Value → Bool
  | .str s => opts.contains s
  | _ => false

/-- Modelled from the spec: validators.py is not in the repository
snapshot.  `IsNumericIterable(required_length)` (the spec's
NumericIterable, §3/§8): a sequence of numbers of exactly the required
length. -/
def IsNumericIterable (required_length : Nat) : Value → Bool
  | .list xs => xs.length == required_length && xs.all (fun v => match v with | .num _ => true | _ => false)
  | _ => false

/-- Modelled from the spec: validators.py is not in the repository
snapshot.  `IsBoolean()` (the spec's BooleanValue, §3). -/
def IsBoolean : Value → Bool
  | .bool _ => true
  | _ => false

/-- Modelled from the spec: pyw3d/validators.py is not in the repository
snapshot.  `ValidPyString()`: accepts strings (used for sound names). -/
def ValidPyString : Value → Bool
  | .str _ => true
  | _ => false

/-- Modelled from the spec: pyw3d/validators.py is not in the repository
snapshot.  `ValidFile()`: accepts a string naming a file. -/
def ValidFile : Value → Bool
  | .str _ => true
  | _ => false

/-- The tables `ObjectAction.argument_validators` / `default_arguments`
(actions.py lines 62-77), in source order. -/
def objectActionSchema : Schema where
  validators := [
    ("object_name", AlwaysValid),
    ("duration", IsNumeric (some 0) none),
    ("visible", AlwaysValid),
    ("placement", AlwaysValid),
    ("move_relative", AlwaysValid),
    ("color", IsNumericIterable 3),
    ("scale", IsNumeric (some 0) none),
    ("sound_change", OptionListValidator ["Play Sound", "Stop Sound"]),
    ("link_change", OptionListValidator ["Enable", "Disable", "Activate", "Activate if enabled"])]
  defaults := [("duration", .num 1)]

/-- Modelled from the spec: pycave/placement.py is not in the repository
snapshot.  The placement appends its serialization as a "Placement" child
of the node it is handed (observable from actions.py lines 98 and 145);
the abstract payload is carried in an attribute. -/
def CavePlacement.toXML (p : CavePlacement) : Element :=
  .mk "Placement" [("data", .str p.payload)] [] none

/-- Modelled from the spec: pycave/placement.py is not in the repository
snapshot.  Inverse of `CavePlacement.toXML`. -/
def CavePlacement.fromXML (place_root : Element) : Except CaveError CavePlacement :=
  match alistLookup place_root.attrib "data" with
  | some (.str s) => .ok { payload := s }
  | _ => .error (.badXML "malformed Placement node")

/-- Embedding of `ObjectAction.toXML` (actions.py lines 79-118), faithful to the
source, bugs included:
  * the Transition "duration" attribute receives the raw value of
    `self["duration"]` with no string conversion (line 89);
  * `self["move_relative"]` (line 94) raises `KeyError` when "placement"
    is set but "move_relative" was never set (no default exists for it);
  * the "sound_change" branch (line 107) passes the set literal
    `("action", self["sound_change"]) as a set` where ElementTree requires
    the `attrib` argument to be a dict, raising `TypeError`;
  * "link_change" values outside the four options would produce a
    childless LinkChange node (unreachable past the validator).
The element returned is the ObjectChange node the source appends to
`parent_root`. -/
def ObjectAction.toXML (self : Store) : Except CaveError Element := do
  let nameV ← featureGet objectActionSchema self "object_name"
  let durV ← featureGet objectActionSchema self "duration"
  let visChildren ←
    if Store.hasKey self "visible" then do
      let v ← featureGet objectActionSchema self "visible"
      let t ← bool2text v
      pure [Element.mk "Visible" [] [] (some t)]
    else pure []
  let moveChildren ←
    if Store.hasKey self "placement" then do
      let mrel ← featureGet objectActionSchema self "move_relative"
      let pv ← featureGet objectActionSchema self "placement"
      match pv with
      | .place p =>
          let tagName := if pyTruthy mrel then "MoveRel" else "Movement"
          pure [Element.mk tagName [] [CavePlacement.toXML p] none]
      | _ => throw (.attributeError "placement value has no attribute toXML")
    else pure []
  let colorChildren ←
    if Store.hasKey self "color" then do
      let cv ← featureGet objectActionSchema self "color"
      match cv with
      | .list (a :: b :: c :: _) =>
          pure [Element.mk "Color" [] [] (some (pyStr a ++ "," ++ pyStr b ++ "," ++ pyStr c))]
      | _ => throw (.indexError "Replacement index out of range for format")
    else pure []
  let scaleChildren ←
    if Store.hasKey self "scale" then do
      let sv ← featureGet objectActionSchema self "scale"
      pure [Element.mk "Scale" [] [] (some (pyStr sv))]
    else pure []
  if Store.hasKey self "sound_change" then
    throw (.typeError "attrib must be dict, not set")
  let linkChildren ←
    if Store.hasKey self "link_change" then do
      let lv ← featureGet objectActionSchema self "link_change"
      let marks : List Element :=
        match lv with
        | .str "Enable" => [Element.mk "link_on" [] [] none]
        | .str "Disable" => [Element.mk "link_off" [] [] none]
        | .str "Activate" => [Element.mk "activate" [] [] none]
        | .str "Activate if enabled" => [Element.mk "activate_if_on" [] [] none]
        | _ => []
      pure [Element.mk "LinkChange" [] marks none]
    else pure []
  let transChildren := visChildren ++ moveChildren ++ colorChildren ++ scaleChildren ++ linkChildren
  pure (Element.mk "ObjectChange" [("name", nameV)]
    [Element.mk "Transition" [("duration", durV)] transChildren none] none)

/-- The TypeError every `fromXML` call in actions.py raises: each of
those functions is declared as a `@classmethod` with a single parameter
(no `cls`), so the classmethod binding supplies the class as an extra
positional argument and Python rejects the call before the body runs.
Contrast `CaveFeature.fromXML(feature_class, xml_root)` (features.py
lines 70-71) and the pyw3d classes, which declare `cls` correctly. -/
def fromXMLBindingError : CaveError :=
  .typeError "fromXML() takes 1 positional argument but 2 were given"

/-- Embedding of the call `ObjectAction.fromXML(node)` (actions.py lines
120-121): the source declares `fromXML` as a one-parameter
`@classmethod`, so every call with a document node raises `TypeError`
before any parsing logic executes.  The written parsing body is embedded
separately as `ObjectAction.fromXML_body`. -/
def ObjectAction.fromXML (_action_root : Element) : Except CaveError Store :=
  .error fromXMLBindingError

/-- The body of `ObjectAction.fromXML` (actions.py lines 122-151),
unreachable in the real program (see `ObjectAction.fromXML`) and
translated faithfully here as what the parser would do were the signature
repaired: requires the "name" attribute (else BadCaveXML); looks up the
"Transition" child (`trans_root.attrib` raises `AttributeError` when it is
absent); reads "duration" through `float(...)` only when the attribute is
present; probes for "Visible", then "MoveRel" (storing `move_relative =
True`), else "Movement" (storing `move_relative =
new_action.get("move_relative", False)`); a Movement/MoveRel node without
a "Placement" child is fatal.  Note Color, Scale, Sound and LinkChange
children are never read back. -/
def ObjectAction.fromXML_body (action_root : Element) : Except CaveError Store := do
  let s1 ←
    match alistLookup action_root.attrib "name" with
    | some v => featureSet objectActionSchema [] "object_name" v
    | none => throw (.badXML "ObjectChange node must have name attribute set")
  let trans_root ←
    match action_root.find "Transition" with
    | some t => pure t
    | none => throw (.attributeError "NoneType object has no attribute attrib")
  let s2 ←
    match alistLookup trans_root.attrib "duration" with
    | some dv => do
        let q ← pyFloat dv
        featureSet objectActionSchema s1 "duration" (.num q)
    | none => pure s1
  let s3 ←
    match trans_root.find "Visible" with
    | some node => do
        let b ← text2bool node.text
        featureSet objectActionSchema s2 "visible" (.bool b)
    | none => pure s2
  let (nodeOpt, s4) ←
    match trans_root.find "MoveRel" with
    | some node => do
        let s' ← featureSet objectActionSchema s3 "move_relative" (.bool true)
        pure (some node, s')
    | none => pure (trans_root.find "Movement", s3)
  match nodeOpt with
  | some node => do
      let mr := Store.get s4 "move_relative" (.bool false)
      let s5 ← featureSet objectActionSchema s4 "move_relative" mr
      match node.find "Placement" with
      | some place_root => do
          let p ← CavePlacement.fromXML place_root
          featureSet objectActionSchema s5 "placement" (.place p)
      | none => throw (.badXML "Movement or MoveRel node requires Placement child node")
  | none => pure s4

/-- Embedding of `CaveFeature.fromXML` (features.py lines 70-79): unlike
the actions.py subclasses, the base class declares its classmethod
correctly (`feature_class, xml_root`), so a call runs and raises
`NotImplementedError`.  Retained to document what the placeholder
subclass bodies (`return CaveFeature.fromXML(...)`) would reach were
their own signatures repaired. -/
def caveFeatureFromXML : Except CaveError Store :=
  .error (.notImplemented "fromXML not defined for this feature")

/-- Embedding of the call `GroupAction.fromXML(node)` (actions.py lines
201-202): a one-parameter `@classmethod`, so any call raises `TypeError`
— the body's delegation to `CaveFeature.fromXML` (line 207, which would
raise `NotImplementedError`) is unreachable. -/
def GroupAction.fromXML (_groupref_root : Element) : Except CaveError Store :=
  .error fromXMLBindingError

/-- Embedding of the call `TimelineAction.fromXML(node)` (actions.py
lines 238-239): a one-parameter `@classmethod`, so any call raises
`TypeError`; the delegation at line 244 is unreachable. -/
def TimelineAction.fromXML (_timer_change_root : Element) : Except CaveError Store :=
  .error fromXMLBindingError

/-- Embedding of the call `SoundAction.fromXML(node)` (actions.py lines
273-274): a one-parameter `@classmethod`, so any call raises `TypeError`;
the delegation at line 279 is unreachable. -/
def SoundAction.fromXML (_soundref_root : Element) : Except CaveError Store :=
  .error fromXMLBindingError

/-- Embedding of the call `EventTriggerAction.fromXML(node)` (actions.py
lines 307-308): a one-parameter `@classmethod`, so any call raises
`TypeError`; the delegation at line 313 is unreachable. -/
def EventTriggerAction.fromXML (_event_root : Element) : Except CaveError Store :=
  .error fromXMLBindingError

/-- Embedding of the call `MoveCaveAction.fromXML(node)` (actions.py
lines 346-347): a one-parameter `@classmethod`, so any call raises
`TypeError`; the delegation at line 352 is unreachable. -/
def MoveCaveAction.fromXML (_move_cave_root : Element) : Except CaveError Store :=
  .error fromXMLBindingError

/-- Embedding of the call `CaveResetAction.fromXML(node)` (actions.py
lines 371-372): a one-parameter `@classmethod`, so any call raises
`TypeError`; the delegation at line 377 is unreachable. -/
def CaveResetAction.fromXML (_restart_root : Element) : Except CaveError Store :=
  .error fromXMLBindingError

/-- The concrete action kind produced by dispatch, tagging the parsed
attribute store with the subclass that built it.  No constructor is ever
produced by the real dispatch (see `CaveAction.fromXML`). -/
inductive ActionInstance where
  | objectAction (s : Store)
  | groupAction (s : Store)
  | timelineAction (s : Store)
  | soundAction (s : Store)
  | eventTriggerAction (s : Store)
  | moveCaveAction (s : Store)
  | caveResetAction (s : Store)

/-- Embedding of the call `CaveAction.fromXML(node)` (actions.py lines
21-22): the dispatcher itself is a one-parameter `@classmethod`, so every
call raises `TypeError` before its body runs.  The dispatch body is
embedded separately as `CaveAction.fromXML_body`. -/
def CaveAction.fromXML (_action_root : Element) : Except CaveError ActionInstance :=
  .error fromXMLBindingError

/-- The body of `CaveAction.fromXML` (actions.py lines 26-43),
unreachable in the real program (see `CaveAction.fromXML`): tag-dispatch
to the concrete subclass's `fromXML` — each such inner call
(`ObjectAction.fromXML(action_root)` and so on, lines 27-39) is itself a
real call to a one-parameter classmethod and raises `TypeError` — while
an unknown tag raises `BadCaveXML` with a message naming the offending
tag. -/
def CaveAction.fromXML_body (action_root : Element) : Except CaveError ActionInstance :=
  if action_root.tag = "ObjectChange" then
    (ObjectAction.fromXML action_root).map .objectAction
  else if action_root.tag = "GroupRef" then
    (GroupAction.fromXML action_root).map .groupAction
  else if action_root.tag = "TimerChange" then
    (TimelineAction.fromXML action_root).map .timelineAction
  else if action_root.tag = "SoundRef" then
    (SoundAction.fromXML action_root).map .soundAction
  else if action_root.tag = "Event" then
    (EventTriggerAction.fromXML action_root).map .eventTriggerAction
  else if action_root.tag = "MoveCave" then
    (MoveCaveAction.fromXML action_root).map .moveCaveAction
  else if action_root.tag = "Restart" then
    (CaveResetAction.fromXML action_root).map .caveResetAction
  else
    .error (.badXML ("Indicated action " ++ action_root.tag ++ " is not a valid action type"))

/-- The tables `W3DSound.argument_validators` / `default_arguments`
(sounds.py lines 83-99), in source order.  The base class `W3DFeature`
(pyw3d/features.py, not in the repository snapshot) is modelled from the
spec §4.2:  its set/get/is_default contract mirrors `CaveFeature`
(features.py), so the same `featureSet`/`featureGet`/`isDefault` are
used. -/
def soundSchema : Schema where
  validators := [
    ("name", ValidPyString),
    ("filename", ValidFile),
    ("autostart", IsBoolean),
    ("movement_mode", OptionListValidator ["Positional", "Fixed"]),
    ("repetitions", IsNumeric none none),
    ("frequency_scale", IsNumeric (some (1/2)) (some 2)),
    ("volume_scale", IsNumeric (some 0) (some 2)),
    ("pan", IsNumeric (some (-1)) (some 1))]
  defaults := [
    ("autostart", .bool false),
    ("movement_mode", .str "Positional"),
    ("repetitions", .num 0),
    ("frequency_scale", .num 1),
    ("volume_scale", .num 1),
    ("pan", .num 0)]

/-- Embedding of `W3DSound.toXML` (sounds.py lines 101-141), faithful to the source:
"name" and "filename" are required (`KeyError` becomes
`ConsistencyError`); "autostart" is emitted only when not defaulted; the
Mode child holds one marker element tagged with the movement mode; the
Repeat child holds "NoRepeat" when `repetitions == 0`, "RepeatForever"
when `repetitions < 0`, and a "RepeatNum" child whose text is
`str(repetitions)` when `repetitions > 0` (three separate `if`s in the
source, appended in that order); Settings collects the non-default
entries of frequency_scale/volume_scale/pan as string attributes freq,
volume and pan.  The element returned is the Sound node the source
appends to `all_sounds_root`. -/
def W3DSound.toXML (self : Store) : Except CaveError Element := do
  let nameV ←
    match featureGet soundSchema self "name" with
    | .ok v => pure v
    | .error (.keyError _) => throw (.consistencyError "W3DSound must set a value for \"name\" key")
    | .error e => throw e
  let fileV ←
    match featureGet soundSchema self "filename" with
    | .ok v => pure v
    | .error (.keyError _) => throw (.consistencyError "W3DSound must set a value for \"filename\" key")
    | .error e => throw e
  let attrib0 : List (String × Value) :=
    [("name", .str (pyStr nameV)), ("filename", .str (pyStr fileV))]
  let attrib ←
    if isDefault soundSchema self "autostart" then pure attrib0
    else do
      let av ← featureGet soundSchema self "autostart"
      let t ← bool2text av
      pure (attrib0 ++ [("autostart", .str t)])
  let modeV ← featureGet soundSchema self "movement_mode"
  let modeTag ←
    match modeV with
    | .str s => pure s
    | _ => throw (.typeError "Element tag must be a string")
  let modeNode := Element.mk "Mode" [] [Element.mk modeTag [] [] none] none
  let repV ← featureGet soundSchema self "repetitions"
  let reps ←
    match repV with
    | .num q => pure q
    | _ => throw (.typeError "comparison not supported for repetitions value")
  let repChildren : List Element :=
    (if reps = 0 then [Element.mk "NoRepeat" [] [] none] else []) ++
    (if reps < 0 then [Element.mk "RepeatForever" [] [] none] else []) ++
    (if reps > 0 then [Element.mk "RepeatNum" [] [] (some (numToStr reps))] else [])
  let repeatNode := Element.mk "Repeat" [] repChildren none
  let settings0 ←
    if isDefault soundSchema self "frequency_scale" then pure []
    else do
      let v ← featureGet soundSchema self "frequency_scale"
      pure [("freq", Value.str (pyStr v))]
  let settings1 ←
    if isDefault soundSchema self "volume_scale" then pure []
    else do
      let v ← featureGet soundSchema self "volume_scale"
      pure [("volume", Value.str (pyStr v))]
  let settings2 ←
    if isDefault soundSchema self "pan" then pure []
    else do
      let v ← featureGet soundSchema self "pan"
      pure [("pan", Value.str (pyStr v))]
  let settingsNode := Element.mk "Settings" (settings0 ++ settings1 ++ settings2) [] none
  pure (Element.mk "Sound" attrib [modeNode, repeatNode, settingsNode] none)

/-- Modelled from the spec: pyw3d/validators.py is not in the repository
snapshot.  `ListValidator(inner, required_length)` (the spec's ListOf,
§3): a sequence whose elements all pass the inner validator, with an
optional required length (a falsy/absent length sentinel means
unconstrained, §4.1). -/
def ListValidator (inner : Value → Bool) (required_length : Option Nat) : Value → Bool
  | .list xs =>
      (match required_length with
       | some n => xs.length == n
       | none => true) && xs.all inner
  | _ => false

/-- Modelled from the spec: pyw3d/validators.py is not in the repository
snapshot, and so is the code of the feature kinds it names (W3DObject,
W3DGroup, W3DPAction, W3DTimeline, W3DTrigger, W3DPlacement).
`FeatureValidator(kind)` performs a structural instance check against
that kind (§3); with the kinds' code missing the check is not modelled and
the validator accepts any value.  No claim exercises these attributes. -/
def FeatureValidator : Value → Bool := fun _ => true

/-- Modelled from the spec: pyw3d/validators.py is not in the repository
snapshot.  `DictValidator(keyValidator, valueValidator)` (the spec's
MappingOf, §3); the wall-placement mapping's value kind is missing from
the snapshot, so the per-entry checks are not modelled.  No claim
exercises this attribute. -/
def DictValidator : Value → Bool := fun _ => true

/-- Modelled from the spec: pyw3d/validators.py is not in the repository
snapshot.  `IsInteger(min_value, max_value)`: an integer within the
inclusive bounds. -/
def IsInteger (min? max? : Option ℚ) : Value → Bool
  | .num q =>
      q.den == 1 &&
      (match min? with | some lo => decide (lo ≤ q) | none => true) &&
      (match max? with | some hi => decide (q ≤ hi) | none => true)
  | _ => false

/-- The tables `W3DProject.argument_validators` / `default_arguments`
(project.py lines 135-190), in source order. -/
def projectSchema : Schema where
  validators := [
    ("objects", ListValidator FeatureValidator none),
    ("groups", ListValidator FeatureValidator none),
    ("particle_actions", ListValidator FeatureValidator none),
    ("timelines", ListValidator FeatureValidator none),
    ("sounds", ListValidator FeatureValidator none),
    ("trigger_events", ListValidator FeatureValidator none),
    ("camera_placement", FeatureValidator),
    ("desktop_camera_placement", FeatureValidator),
    ("far_clip", IsNumeric (some 0) none),
    ("background", ListValidator (IsInteger (some 0) (some 255)) (some 3)),
    ("allow_movement", IsBoolean),
    ("allow_rotation", IsBoolean),
    ("debug", IsBoolean),
    ("profile", IsBoolean),
    ("wall_placements", DictValidator)]
  defaults := [
    ("far_clip", .num 100),
    ("background", .list [.num 0, .num 0, .num 0]),
    ("allow_movement", .bool true),
    ("allow_rotation", .bool true),
    ("debug", .bool false),
    ("profile", .bool false)]

/-- Numeric levels of Python's logging module, the state mutated by
`W3DProject.__setitem__`. -/
def LOGGING_DEBUG : Nat := 10

def LOGGING_WARNING : Nat := 30

/-- Embedding of `W3DProject.__setitem__` (project.py lines 192-198): when the key is
"debug" the process-wide pyw3d logger level is reassigned — DEBUG if the
value is truthy, WARNING otherwise — before `super().__setitem__` runs its
validation, so the reassignment happens even when the write itself is then
rejected.  The logger level is threaded as explicit state; the first
component of the result is the logger level after the call. -/
def projectSetItem (loggerLevel : Nat) (self : Store) (key : String) (value : Value) :
    Nat × Except CaveError Store :=
  let newLevel :=
    if key = "debug" then
      if pyTruthy value then LOGGING_DEBUG else LOGGING_WARNING
    else loggerLevel
  (newLevel, featureSet projectSchema self key value)

theorem Store.lookup_set (s : Store) (k : String) (v : Value) :
    (s.set k v).lookup k = some v := by
  induction s with
  | nil => simp [Store.set, Store.lookup, alistLookup]
  | cons hd tl ih =>
    obtain ⟨k', v'⟩ := hd
    by_cases h : k' = k
    · simp [Store.set, Store.lookup, alistLookup, h]
    · simpa [Store.set, Store.lookup, alistLookup, h] using ih

theorem Store.hasKey_set (s : Store) (k : String) (v : Value) :
    (s.set k v).hasKey k = true := by
  induction s with
  | nil => simp [Store.set, Store.hasKey]
  | cons hd tl ih =>
    obtain ⟨k', v'⟩ := hd
    by_cases h : k' = k
    · simp [Store.set, Store.hasKey, h]
    · simpa [Store.set, Store.hasKey, h] using ih

/-- C4: for every feature kind (schema), attribute name and value,
`set(name, value)` fails with the schema-miss InvalidArgument error
(the spec's InvalidAttribute) when the name has no validator, fails with
the value-rejection InvalidArgument error (the spec's InvalidValue) when
the validator refuses the value, and otherwise commits the write so that
a subsequent `get(name)` returns exactly the written value, uncoerced. -/
theorem featureSet_spec (sch : Schema) (self : Store) (n : String) (v : Value) :
    (sch.findValidator n = none →
      featureSet sch self n v = .error (.invalidAttribute n)) ∧
    (∀ f, sch.findValidator n = some f → f v = false →
      featureSet sch self n v = .error (.invalidValue n v)) ∧
    (∀ f, sch.findValidator n = some f → f v = true →
      featureSet sch self n v = .ok (self.set n v) ∧
        featureGet sch (self.set n v) n = .ok v) := by
  refine ⟨fun h => ?_, fun f hf hv => ?_, fun f hf hv => ⟨?_, ?_⟩⟩
  · simp [featureSet, h]
  · simp [featureSet, hf, hv]
  · simp [featureSet, hf, hv]
  · simp [featureGet, Store.lookup_set]

/-- Witness for `featureSet_spec` on the ObjectAction schema: a key
outside the schema, a rejected duration, and a committed duration. -/
theorem featureSet_spec_witness :
    featureSet objectActionSchema [] "bogus" (.num 1) = .error (.invalidAttribute "bogus") ∧
    featureSet objectActionSchema [] "duration" (.num (-1)) =
      .error (.invalidValue "duration" (.num (-1))) ∧
    (featureSet objectActionSchema [] "duration" (.num 2) = .ok (Store.set [] "duration" (.num 2)) ∧
      featureGet objectActionSchema (Store.set [] "duration" (.num 2)) "duration" = .ok (.num 2)) :=
  ⟨(featureSet_spec objectActionSchema [] "bogus" (.num 1)).1 rfl,
   (featureSet_spec objectActionSchema [] "duration" (.num (-1))).2.1 _ rfl (by decide),
   (featureSet_spec objectActionSchema [] "duration" (.num 2)).2.2 _ rfl (by decide)⟩

/-- C5: `is_default(name)` is true iff the name is absent from storage
and a default is declared for it; after any successful `set(name, v)` it
is false, even when `v` equals the declared default. -/
theorem isDefault_spec (sch : Schema) (self : Store) (n : String) :
    (isDefault sch self n = true ↔
      self.hasKey n = false ∧ (sch.findDefault n).isSome = true) ∧
    (∀ v s', featureSet sch self n v = .ok s' → isDefault sch s' n = false) := by
  constructor
  · simp [isDefault]
  · intro v s' h
    have hs : s' = self.set n v := by
      unfold featureSet at h
      rcases hv : sch.findValidator n with _ | f <;> rw [hv] at h
      · cases h
      · by_cases hfv : f v = true
        · simp [hfv] at h
          exact h.symm
        · simp [hfv] at h
    subst hs
    simp [isDefault, Store.hasKey_set]

/-- Witness for `isDefault_spec`: setting "duration" to 1 — the declared
default value — still makes `is_default("duration")` false. -/
theorem isDefault_spec_witness :
    (isDefault objectActionSchema [] "duration" = true ↔
      Store.hasKey [] "duration" = false ∧
        (objectActionSchema.findDefault "duration").isSome = true) ∧
    isDefault objectActionSchema (Store.set [] "duration" (.num 1)) "duration" = false :=
  ⟨(isDefault_spec objectActionSchema [] "duration").1,
   (isDefault_spec objectActionSchema [] "duration").2 (.num 1) (Store.set [] "duration" (.num 1))
     rfl⟩

/-- C6: `get(name)` returns the stored value when present; when absent it
returns the declared default if one exists (without touching the store:
`featureGet` is a pure read returning only the value), and raises
`KeyError` (the spec's MissingAttribute) when no default exists either. -/
theorem featureGet_spec (sch : Schema) (self : Store) (n : String) :
    (∀ v, self.lookup n = some v → featureGet sch self n = .ok v) ∧
    (∀ d, self.lookup n = none → sch.findDefault n = some d → featureGet sch self n = .ok d) ∧
    (self.lookup n = none → sch.findDefault n = none →
      featureGet sch self n = .error (.keyError n)) := by
  refine ⟨fun v h => ?_, fun d h hd => ?_, fun h hd => ?_⟩
  · simp [featureGet, h]
  · simp [featureGet, h, hd]
  · simp [featureGet, h, hd]

/-- Witness for `featureGet_spec`: a stored duration, the defaulted
duration on an empty store, and the defaultless "visible" key raising. -/
theorem featureGet_spec_witness :
    featureGet objectActionSchema [("duration", .num 2)] "duration" = .ok (.num 2) ∧
    featureGet objectActionSchema [] "duration" = .ok (.num 1) ∧
    featureGet objectActionSchema [] "visible" = .error (.keyError "visible") :=
  ⟨(featureGet_spec objectActionSchema [("duration", .num 2)] "duration").1 (.num 2) rfl,
   (featureGet_spec objectActionSchema [] "duration").2.1 (.num 1) rfl rfl,
   (featureGet_spec objectActionSchema [] "visible").2.2 rfl rfl⟩

/-- C9: writing "placement" on an Object-change action that never set
"move_relative" succeeds at write time (the write is individually valid),
but serializing the resulting instance fails — `self["move_relative"]`
raises `KeyError` (actions.py line 94) before any Movement or MoveRel
child is produced. -/
theorem objectAction_placement_without_move_relative (nv : Value) (p : CavePlacement) :
    featureSet objectActionSchema [("object_name", nv)] "placement" (.place p) =
      .ok [("object_name", nv), ("placement", .place p)] ∧
    ObjectAction.toXML [("object_name", nv), ("placement", .place p)] =
      .error (.keyError "move_relative") := by
  constructor
  · rfl
  · rfl

/-- C10: on a project feature, any attempted set of "debug" reassigns the
process-wide logger level — DEBUG when the value is truthy, WARNING
otherwise — before validation runs, so the reassignment happens even when
the write is rejected (shown for the truthy non-boolean 5, which fails
the IsBoolean validator yet leaves the level at DEBUG); setting any other
key leaves the level unchanged. -/
theorem projectSetItem_spec (loggerLevel : Nat) (self : Store) (k : String) (v : Value) :
    ((projectSetItem loggerLevel self "debug" v).1 =
      if pyTruthy v then LOGGING_DEBUG else LOGGING_WARNING) ∧
    (k ≠ "debug" → (projectSetItem loggerLevel self k v).1 = loggerLevel) ∧
    ((projectSetItem loggerLevel self "debug" (.num 5)).1 = LOGGING_DEBUG ∧
      (projectSetItem loggerLevel self "debug" (.num 5)).2 =
        .error (.invalidValue "debug" (.num 5))) := by
  refine ⟨?_, fun h => ?_, ?_, ?_⟩
  · simp [projectSetItem]
  · simp [projectSetItem, h]
  · simp [projectSetItem, pyTruthy]
  · rfl

/-- Witness for `projectSetItem_spec`: a falsy debug write lands on
WARNING, a truthy one on DEBUG, a write to "far_clip" leaves the level
alone, and the rejected non-boolean debug write still lands on DEBUG. -/
theorem projectSetItem_spec_witness :
    (projectSetItem 30 [] "debug" (.bool true)).1 =
      (if pyTruthy (.bool true) then LOGGING_DEBUG else LOGGING_WARNING) ∧
    (projectSetItem 10 [] "debug" (.bool false)).1 =
      (if pyTruthy (.bool false) then LOGGING_DEBUG else LOGGING_WARNING) ∧
    (projectSetItem 30 [] "far_clip" (.num 5)).1 = 30 ∧
    ((projectSetItem 30 [] "debug" (.num 5)).1 = LOGGING_DEBUG ∧
      (projectSetItem 30 [] "debug" (.num 5)).2 = .error (.invalidValue "debug" (.num 5))) :=
  ⟨(projectSetItem_spec 30 [] "debug" (.bool true)).1,
   (projectSetItem_spec 10 [] "debug" (.bool false)).1,
   (projectSetItem_spec 30 [] "far_clip" (.num 5)).2.1 (by decide),
   (projectSetItem_spec 30 [] "debug" (.num 5)).2.2⟩

/-- An ObjectChange document node carrying an arbitrary name attribute
value, one Transition child with no attributes, and the given Transition
children: the family of inputs exercising the movement branch of
`ObjectAction.fromXML`. -/
def mkObjectChangeNode (nv : Value) (transChildren : List Element) : Element :=
  .mk "ObjectChange" [("name", nv)] [.mk "Transition" [] transChildren none] none

/-- C7: the claim correctly describes the parsing logic the source wrote
— shown here on `ObjectAction.fromXML_body`: `move_relative = True` is
stored when the Transition has a "MoveRel" child, `move_relative = False`
is stored explicitly when it instead has a "Movement" child,
"move_relative" stays entirely absent when neither exists, and a Movement
or MoveRel element lacking a nested "Placement" child is a fatal
BadCaveXML (MalformedDocument) error — but the code has a bug: `fromXML`
omits its classmethod `cls` parameter, so the real call raises
`TypeError` on every input (first conjunct, evaluated at the claim's
MoveRel input), never reaching the body its own docstring promises to
run. -/
theorem objectAction_fromXML_move_relative (nv : Value) (p : CavePlacement) :
    ObjectAction.fromXML (mkObjectChangeNode nv [.mk "MoveRel" [] [p.toXML] none]) =
      .error fromXMLBindingError ∧
    ObjectAction.fromXML_body (mkObjectChangeNode nv [.mk "MoveRel" [] [p.toXML] none]) =
      .ok [("object_name", nv), ("move_relative", .bool true), ("placement", .place p)] ∧
    ObjectAction.fromXML_body (mkObjectChangeNode nv [.mk "Movement" [] [p.toXML] none]) =
      .ok [("object_name", nv), ("move_relative", .bool false), ("placement", .place p)] ∧
    ObjectAction.fromXML_body (mkObjectChangeNode nv []) = .ok [("object_name", nv)] ∧
    ObjectAction.fromXML_body (mkObjectChangeNode nv [.mk "MoveRel" [] [] none]) =
      .error (.badXML "Movement or MoveRel node requires Placement child node") ∧
    ObjectAction.fromXML_body (mkObjectChangeNode nv [.mk "Movement" [] [] none]) =
      .error (.badXML "Movement or MoveRel node requires Placement child node") :=
  ⟨rfl, rfl, rfl, rfl, rfl, rfl⟩

/-- The claim asserts that parsing scenario A's output back yields an
instance where `is_default("duration")` is true.  It is false twice over:
the serialized Transition carries the raw number 1 (not the string "1",
actions.py line 89), and parsing it back yields no instance at all —
`ObjectAction.fromXML` is a one-parameter classmethod, so the call raises
`TypeError` before any parsing runs. -/
theorem objectChange_cube_parse_raises :
    ObjectAction.toXML [("object_name", .str "Cube")] =
      .ok (.mk "ObjectChange" [("name", .str "Cube")]
        [.mk "Transition" [("duration", .num 1)] [] none] none) ∧
    ObjectAction.fromXML
        (.mk "ObjectChange" [("name", .str "Cube")]
          [.mk "Transition" [("duration", .num 1)] [] none] none) =
      .error fromXMLBindingError :=
  ⟨rfl, rfl⟩

/-- C2 (amended): an Object-change action with only `object_name =
"Cube"` set serializes to an ObjectChange element with a name="Cube"
attribute containing exactly one Transition child whose "duration"
attribute holds the raw number 1 (the un-stringified default) and which
has no other children; parsing that output back raises `TypeError`
rather than yielding an instance, because `fromXML` omits its classmethod
`cls` parameter; and even the parser body, were it reachable, would find
the always-emitted duration attribute and store it explicitly, yielding
`get("duration") = 1` but `is_default("duration")` false, not true. -/
theorem objectChange_cube_scenario :
    ObjectAction.toXML [("object_name", .str "Cube")] =
      .ok (.mk "ObjectChange" [("name", .str "Cube")]
        [.mk "Transition" [("duration", .num 1)] [] none] none) ∧
    ObjectAction.fromXML
        (.mk "ObjectChange" [("name", .str "Cube")]
          [.mk "Transition" [("duration", .num 1)] [] none] none) =
      .error fromXMLBindingError ∧
    ObjectAction.fromXML_body
        (.mk "ObjectChange" [("name", .str "Cube")]
          [.mk "Transition" [("duration", .num 1)] [] none] none) =
      .ok [("object_name", .str "Cube"), ("duration", .num 1)] ∧
    featureGet objectActionSchema [("object_name", .str "Cube"), ("duration", .num 1)]
        "duration" = .ok (.num 1) ∧
    isDefault objectActionSchema [("object_name", .str "Cube"), ("duration", .num 1)]
        "duration" = false :=
  ⟨rfl, rfl, rfl, rfl, rfl⟩

/-- The claim asserts that dispatching a node with a registered tag
returns an instance of the matching concrete kind.  It is false even for
a well-formed ObjectChange node: `CaveAction.fromXML` is itself a
one-parameter classmethod, so the dispatch call raises `TypeError`
before its body runs and never returns an instance of any kind. -/
theorem caveAction_dispatch_raises_typeerror :
    CaveAction.fromXML (.mk "ObjectChange" [("name", .str "Cube")]
        [.mk "Transition" [] [] none] none) =
      .error fromXMLBindingError :=
  rfl

/-- C3 (amended): dispatching any document node through
`CaveAction.fromXML` raises `TypeError` at the call itself, because the
dispatcher — like every action `fromXML` in the module — is a
one-parameter classmethod; even the dispatch body, were it reachable,
would raise `TypeError` at each registered tag's inner `fromXML` call
(yielding no instance of any kind and no `NotImplementedError` outward),
and would fail with `BadCaveXML` (the spec's UnrecognizedKind) carrying
the offending tag name only for unregistered tags, never silently
dropping or coercing them. -/
theorem caveAction_dispatch_spec (e : Element) :
    CaveAction.fromXML e = .error fromXMLBindingError ∧
    (e.tag ∈ ["ObjectChange", "GroupRef", "TimerChange", "SoundRef", "Event", "MoveCave",
        "Restart"] →
      CaveAction.fromXML_body e = .error fromXMLBindingError) ∧
    (e.tag ∉ ["ObjectChange", "GroupRef", "TimerChange", "SoundRef", "Event", "MoveCave",
        "Restart"] →
      CaveAction.fromXML_body e = .error
        (.badXML ("Indicated action " ++ e.tag ++ " is not a valid action type"))) := by
  refine ⟨rfl, fun h => ?_, fun h => ?_⟩
  · simp only [List.mem_cons, List.mem_singleton, List.not_mem_nil, or_false] at h
    rcases h with h | h | h | h | h | h | h <;>
      simp [CaveAction.fromXML_body, h, ObjectAction.fromXML, GroupAction.fromXML,
        TimelineAction.fromXML, SoundAction.fromXML, EventTriggerAction.fromXML,
        MoveCaveAction.fromXML, CaveResetAction.fromXML, Except.map]
  · simp only [List.mem_cons, List.mem_singleton, List.not_mem_nil, or_false, not_or] at h
    obtain ⟨h1, h2, h3, h4, h5, h6, h7⟩ := h
    simp [CaveAction.fromXML_body, h1, h2, h3, h4, h5, h6, h7]

/-- Witness for `caveAction_dispatch_spec`: the real dispatch raises
`TypeError` on a well-formed ObjectChange node; the dispatch body would
raise `TypeError` for the registered tag "TimerChange" and report the
unregistered tag "Bogus" in a `BadCaveXML` error. -/
theorem caveAction_dispatch_spec_witness :
    CaveAction.fromXML (.mk "ObjectChange" [("name", .str "Cube")]
        [.mk "Transition" [] [] none] none) =
      .error fromXMLBindingError ∧
    CaveAction.fromXML_body (.mk "TimerChange" [] [] none) =
      .error fromXMLBindingError ∧
    CaveAction.fromXML_body (.mk "Bogus" [] [] none) =
      .error (.badXML ("Indicated action " ++ "Bogus" ++ " is not a valid action type")) :=
  ⟨(caveAction_dispatch_spec (.mk "ObjectChange" [("name", .str "Cube")]
      [.mk "Transition" [] [] none] none)).1,
   (caveAction_dispatch_spec (.mk "TimerChange" [] [] none)).2.1 (by decide),
   (caveAction_dispatch_spec (.mk "Bogus" [] [] none)).2.2 (by decide)⟩

/-- A W3DSound attribute store with the two required strings set and the
number of repetitions either explicitly set or left to its default. -/
def soundStoreNF (s f : String) (reps : Option ℚ) : Store :=
  [("name", .str s), ("filename", .str f)] ++
    (match reps with | some q => [("repetitions", .num q)] | none => [])

/-- The Sound element `W3DSound.toXML` produces for `soundStoreNF`: only
defaulted settings, a Positional Mode marker, and the given Repeat
children. -/
def soundElemNF (s f : String) (repChildren : List Element) : Element :=
  .mk "Sound" [("name", .str s), ("filename", .str f)]
    [.mk "Mode" [] [.mk "Positional" [] [] none] none,
     .mk "Repeat" [] repChildren none,
     .mk "Settings" [] [] none] none

/-- C8: serializing a Sound feature emits its Repeat child as a
"RepeatForever" marker element with no text when `repetitions` is
negative, as a "RepeatNum" child whose text is the decimal rendering of
the number when `repetitions` is positive, and as a "NoRepeat" marker
when `repetitions` is 0 — whether set explicitly to 0 or left to its
declared default. -/
theorem sound_repeat_serialization (s f : String) (q : ℚ) :
    (q < 0 → W3DSound.toXML (soundStoreNF s f (some q)) =
      .ok (soundElemNF s f [.mk "RepeatForever" [] [] none])) ∧
    (0 < q → W3DSound.toXML (soundStoreNF s f (some q)) =
      .ok (soundElemNF s f [.mk "RepeatNum" [] [] (some (numToStr q))])) ∧
    W3DSound.toXML (soundStoreNF s f (some 0)) =
      .ok (soundElemNF s f [.mk "NoRepeat" [] [] none]) ∧
    W3DSound.toXML (soundStoreNF s f none) =
      .ok (soundElemNF s f [.mk "NoRepeat" [] [] none]) := by
  refine ⟨fun h => ?_, fun h => ?_, ?_, ?_⟩
  · simp [W3DSound.toXML, soundStoreNF, soundElemNF, featureGet, Store.lookup, alistLookup,
      isDefault, Store.hasKey, soundSchema, Schema.findDefault, pyStr, Except.bind, Bind.bind,
      Pure.pure, Except.pure, h, h.ne, not_lt.mpr h.le]
  · simp [W3DSound.toXML, soundStoreNF, soundElemNF, featureGet, Store.lookup, alistLookup,
      isDefault, Store.hasKey, soundSchema, Schema.findDefault, pyStr, Except.bind, Bind.bind,
      Pure.pure, Except.pure, h, h.ne', not_lt.mpr h.le]
  · rfl
  · rfl

/-- Witness for `sound_repeat_serialization` at the claim's three
concrete repetition counts: -1 gives a bare RepeatForever marker, 3 gives
a RepeatNum child with text "3", and the default 0 gives NoRepeat. -/
theorem sound_repeat_serialization_witness :
    W3DSound.toXML (soundStoreNF "chime" "chime.wav" (some (-1))) =
      .ok (soundElemNF "chime" "chime.wav" [.mk "RepeatForever" [] [] none]) ∧
    W3DSound.toXML (soundStoreNF "chime" "chime.wav" (some 3)) =
      .ok (soundElemNF "chime" "chime.wav" [.mk "RepeatNum" [] [] (some "3")]) ∧
    W3DSound.toXML (soundStoreNF "chime" "chime.wav" none) =
      .ok (soundElemNF "chime" "chime.wav" [.mk "NoRepeat" [] [] none]) :=
  ⟨(sound_repeat_serialization "chime" "chime.wav" (-1)).1 (by norm_num),
   (sound_repeat_serialization "chime" "chime.wav" 3).2.1 (by norm_num),
   (sound_repeat_serialization "chime" "chime.wav" 3).2.2.2⟩

/-- The claim asserts `from_document(to_document(x))` agrees with `x` on
every explicitly-set attribute.  It is false twice over: serializing an
action with an explicitly-set color succeeds, but `from_document` raises
`TypeError` on the produced node (every `fromXML` in actions.py is a
one-parameter classmethod), so no attribute survives the round trip; and
even the parser body, were it reachable, would come back with no "color"
attribute at all — the Color child (like Scale and LinkChange) is emitted
but never read back. -/
theorem objectAction_roundtrip_fails :
    ObjectAction.toXML
        [("object_name", .str "Cube"), ("color", .list [.num 1, .num 2, .num 3])] =
      .ok (.mk "ObjectChange" [("name", .str "Cube")]
        [.mk "Transition" [("duration", .num 1)]
          [.mk "Color" [] [] (some "1,2,3")] none] none) ∧
    ObjectAction.fromXML
        (.mk "ObjectChange" [("name", .str "Cube")]
          [.mk "Transition" [("duration", .num 1)]
            [.mk "Color" [] [] (some "1,2,3")] none] none) =
      .error fromXMLBindingError ∧
    ObjectAction.fromXML_body
        (.mk "ObjectChange" [("name", .str "Cube")]
          [.mk "Transition" [("duration", .num 1)]
            [.mk "Color" [] [] (some "1,2,3")] none] none) =
      .ok [("object_name", .str "Cube"), ("duration", .num 1)] ∧
    Store.lookup [("object_name", .str "Cube"), ("duration", .num 1)] "color" = none :=
  ⟨rfl, rfl, rfl, rfl⟩

/-- An ObjectAction attribute store covering the attributes the
deserializer can read back: the required object name, an optional
explicit duration, an optional visibility flag, and an optional placement
together with the boolean move_relative flag that serialization requires
alongside it. -/
def objStoreNF (nv : Value) (dur : Option ℚ) (vis : Option Bool)
    (mov : Option (Bool × CavePlacement)) : Store :=
  [("object_name", nv)] ++
    (match dur with | some q => [("duration", Value.num q)] | none => []) ++
    (match vis with | some b => [("visible", Value.bool b)] | none => []) ++
    (match mov with
     | some (r, p) => [("move_relative", Value.bool r), ("placement", Value.place p)]
     | none => [])

/-- The ObjectChange element `ObjectAction.toXML` produces for
`objStoreNF`: the duration attribute holds the stored or defaulted
number, and the Transition children are the Visible marker and the
MoveRel/Movement node wrapping the placement's serialization. -/
def objElemNF (nv : Value) (dur : Option ℚ) (vis : Option Bool)
    (mov : Option (Bool × CavePlacement)) : Element :=
  .mk "ObjectChange" [("name", nv)]
    [.mk "Transition" [("duration", .num (dur.getD 1))]
      ((match vis with
        | some b => [Element.mk "Visible" [] [] (some (if b then "True" else "False"))]
        | none => []) ++
       (match mov with
        | some (r, p) =>
            [Element.mk (if r then "MoveRel" else "Movement") [] [CavePlacement.toXML p] none]
        | none => []))
      none] none

/-- The store the parser body `ObjectAction.fromXML_body` would rebuild
from `objElemNF`: the duration is always explicitly stored (the attribute
is always emitted), and the optional attributes reappear with their
original values. -/
def objRoundTripResult (nv : Value) (dur : Option ℚ) (vis : Option Bool)
    (mov : Option (Bool × CavePlacement)) : Store :=
  [("object_name", nv), ("duration", .num (dur.getD 1))] ++
    (match vis with | some b => [("visible", Value.bool b)] | none => []) ++
    (match mov with
     | some (r, p) => [("move_relative", Value.bool r), ("placement", Value.place p)]
     | none => [])

theorem toXML_objStoreNF (nv : Value) (dur : Option ℚ) (vis : Option Bool)
    (mov : Option (Bool × CavePlacement)) :
    ObjectAction.toXML (objStoreNF nv dur vis mov) = .ok (objElemNF nv dur vis mov) := by
  rcases dur with _ | q <;> rcases vis with _ | b <;> rcases mov with _ | ⟨r, p⟩ <;> rfl

theorem fromXML_body_objElemNF (nv : Value) (dur : Option ℚ) (vis : Option Bool)
    (mov : Option (Bool × CavePlacement)) (hdur : ∀ q, dur = some q → 0 ≤ q) :
    ObjectAction.fromXML_body (objElemNF nv dur vis mov) =
      .ok (objRoundTripResult nv dur vis mov) := by
  rcases dur with _ | q <;> rcases vis with _ | b <;> rcases mov with _ | ⟨r, p⟩ <;>
      (try cases b) <;> (try cases r) <;> try rfl
  all_goals {
    have h0 : (0:ℚ) ≤ q := hdur q rfl
    simp [ObjectAction.fromXML_body, objElemNF, objRoundTripResult, featureSet, featureGet,
      objectActionSchema, Schema.findValidator, Schema.findValidator.findAux,
      Schema.findDefault, IsNumeric, AlwaysValid, alistLookup, Store.lookup, Store.set,
      Store.hasKey, Store.get, Element.find, Element.find.findAux, Element.tag,
      Element.attrib, Element.text, pyFloat, text2bool, CavePlacement.fromXML,
      CavePlacement.toXML, Except.bind, Bind.bind, Pure.pure, Except.pure, h0]
  }

theorem objRoundTripResult_lookups (nv : Value) (dur : Option ℚ) (vis : Option Bool)
    (mov : Option (Bool × CavePlacement)) :
    Store.lookup (objRoundTripResult nv dur vis mov) "object_name" = some nv ∧
    (∀ q, dur = some q →
      Store.lookup (objRoundTripResult nv dur vis mov) "duration" = some (.num q)) ∧
    (∀ b, vis = some b →
      Store.lookup (objRoundTripResult nv dur vis mov) "visible" = some (.bool b)) ∧
    (∀ r p, mov = some (r, p) →
      Store.lookup (objRoundTripResult nv dur vis mov) "move_relative" = some (.bool r) ∧
      Store.lookup (objRoundTripResult nv dur vis mov) "placement" = some (.place p)) := by
  refine ⟨rfl, fun q h => ?_, fun b h => ?_, fun r p h => ?_⟩
  · cases h; rfl
  · cases h; rfl
  · cases h; rcases vis with _ | b <;> exact ⟨rfl, rfl⟩

/-- C1 (amended): for every validly-constructed Object-change action
`to_document` produces the documented fragment, but `from_document`
raises `TypeError` on every node — the source's `fromXML` classmethods
omit their `cls` parameter — so no attribute survives a real round trip.
Even with the signature repaired the law would hold only on the
attributes the parser body reads back: for instances whose
explicitly-set attributes lie among object_name, duration (≥ 0), visible,
and a placement together with a boolean move_relative, the parser body
applied to the serialized fragment agrees with the instance on every
explicitly-set attribute, while color, scale and link_change are
serialized but never deserialized (`objectAction_roundtrip_fails`) and a
set sound_change makes serialization itself fail with a `TypeError`. -/
theorem objectAction_roundtrip (nv : Value) (dur : Option ℚ) (vis : Option Bool)
    (mov : Option (Bool × CavePlacement)) (hdur : ∀ q, dur = some q → 0 ≤ q) :
    ∃ e, ObjectAction.toXML (objStoreNF nv dur vis mov) = .ok e ∧
      ObjectAction.fromXML e = .error fromXMLBindingError ∧
      ObjectAction.fromXML_body e = .ok (objRoundTripResult nv dur vis mov) ∧
      Store.lookup (objRoundTripResult nv dur vis mov) "object_name" = some nv ∧
      (∀ q, dur = some q →
        Store.lookup (objRoundTripResult nv dur vis mov) "duration" = some (.num q)) ∧
      (∀ b, vis = some b →
        Store.lookup (objRoundTripResult nv dur vis mov) "visible" = some (.bool b)) ∧
      (∀ r p, mov = some (r, p) →
        Store.lookup (objRoundTripResult nv dur vis mov) "move_relative" = some (.bool r) ∧
        Store.lookup (objRoundTripResult nv dur vis mov) "placement" = some (.place p)) := by
  obtain ⟨h1, h2, h3, h4⟩ := objRoundTripResult_lookups nv dur vis mov
  exact ⟨objElemNF nv dur vis mov, toXML_objStoreNF nv dur vis mov, rfl,
    fromXML_body_objElemNF nv dur vis mov hdur, h1, h2, h3, h4⟩

/-- Witness for `objectAction_roundtrip`: a fully-populated instance —
name "Cube", duration 2, visible true, a relative move with a concrete
placement — serializes, the real parse-back raises `TypeError`, and the
parser body would recover all five attributes. -/
theorem objectAction_roundtrip_witness :
    ∃ e,
      ObjectAction.toXML (objStoreNF (.str "Cube") (some 2) (some true)
        (some (true, ⟨"pl"⟩))) = .ok e ∧
      ObjectAction.fromXML e = .error fromXMLBindingError ∧
      ObjectAction.fromXML_body e =
        .ok (objRoundTripResult (.str "Cube") (some 2) (some true) (some (true, ⟨"pl"⟩))) ∧
      Store.lookup (objRoundTripResult (.str "Cube") (some 2) (some true)
        (some (true, ⟨"pl"⟩))) "object_name" = some (.str "Cube") ∧
      (∀ q, (some 2 : Option ℚ) = some q →
        Store.lookup (objRoundTripResult (.str "Cube") (some 2) (some true)
          (some (true, ⟨"pl"⟩))) "duration" = some (.num q)) ∧
      (∀ b, (some true : Option Bool) = some b →
        Store.lookup (objRoundTripResult (.str "Cube") (some 2) (some true)
          (some (true, ⟨"pl"⟩))) "visible" = some (.bool b)) ∧
      (∀ r p, (some (true, (⟨"pl"⟩ : CavePlacement)) : Option (Bool × CavePlacement)) =
          some (r, p) →
        Store.lookup (objRoundTripResult (.str "Cube") (some 2) (some true)
          (some (true, ⟨"pl"⟩))) "move_relative" = some (.bool r) ∧
        Store.lookup (objRoundTripResult (.str "Cube") (some 2) (some true)
          (some (true, ⟨"pl"⟩))) "placement" = some (.place p)) :=
  objectAction_roundtrip (.str "Cube") (some 2) (some true) (some (true, ⟨"pl"⟩))
    (fun q h => by cases h; norm_num)
